import Mathlib

/-!
Verification development for the player-prediction core of the Fortnite
platform repository (`src/utils/prediction_utils.py`).

Modeling conventions:
* machine floats are embedded as `ℚ` (all constants in the source are
  decimal literals, so the arithmetic is exact up to float rounding);
* timestamps are epoch seconds (`Int`); `datetime.now()` and its derived
  fields are explicit `Env` parameters;
* `np.random.*` calls are explicit streams in `Env`;
* the external Prophet library is an oracle (`FitOutcome`): a fitted model
  is an arbitrary prediction function `Int → ℚ × ℚ × ℚ` giving
  `(yhat, yhat_lower, yhat_upper)` per timestamp, a fit error caught inside
  `train_model` is `fail`, and an exception escaping inside the main `try`
  of `generate_predictions` is `raise`;
* Python exceptions that propagate out of `generate_predictions` are
  `Except.error`.
-/

namespace Fortnite

/-- Python `int()` truncation toward zero on a rational. -/
def pyInt (q : ℚ) : Int := if 0 ≤ q then ⌊q⌋ else ⌈q⌉

/-- Maximum of a list of integers (pandas `.max()` / Python `max`), 0 for []. -/
def listMax : List Int → Int
  | [] => 0
  | x :: xs => xs.foldl max x

/-- Is `nd` a prefix of the character list. -/
def chPre : List Char → List Char → Bool
  | [], _ => true
  | _ :: _, [] => false
  | a :: as, b :: bs => a = b && chPre as bs

/-- Is `nd` a contiguous sublist of the character list (Python `in` on str). -/
def chSub (nd : List Char) : List Char → Bool
  | [] => nd.isEmpty
  | c :: cs => chPre nd (c :: cs) || chSub nd cs

/-- Python `nd in hay` on strings. -/
def strHasSub (hay nd : String) : Bool := chSub nd.toList hay.toList

/-- Python `str.replace` for a single-character needle. -/
def replChar (c : Char) (rep : List Char) : List Char → List Char
  | [] => []
  | x :: xs => (if x = c then rep else [x]) ++ replChar c rep xs

/-- Numeric value of a digit string, most significant first. -/
def digitsToNat (l : List Char) : Nat := l.foldl (fun n c => n * 10 + (c.toNat - 48)) 0

/-- Split a character list on the dot character. -/
def splitOnDot : List Char → List (List Char)
  | [] => [[]]
  | c :: cs =>
    if c = '.' then [] :: splitOnDot cs
    else
      match splitOnDot cs with
      | [] => [[c]]
      | h :: t => (c :: h) :: t

/-- Python `float()` on a string made of digits and dots; `none` models
`ValueError`. -/
def parseFloatQ (l : List Char) : Option ℚ :=
  match splitOnDot l with
  | [a] => if a ≠ [] ∧ a.all Char.isDigit then some ((digitsToNat a : ℚ)) else none
  | [a, b] =>
    if (a ≠ [] ∨ b ≠ []) ∧ a.all Char.isDigit ∧ b.all Char.isDigit then
      some ((digitsToNat a : ℚ) + (digitsToNat b : ℚ) / ((10 : ℚ) ^ b.length))
    else none
  | _ => none

/-- The value-cleaning pipeline of `preprocess_data` (hourly branch):
`str(x).replace(',', '').replace('K', '000')` then keep only digits and dots. -/
def cleanValue (s : String) : List Char :=
  (replChar 'K' ['0', '0', '0'] (replChar ',' [] s.toList)).filter
    (fun c => c.isDigit || c = '.')

/-- Value contributed by one candidate cell in the hourly branch of
`preprocess_data`: the parsed float, or 0 when empty/unparsable (a failed
parse leaves `max_value` unchanged, which is the same as contributing 0
since `max_value` starts at 0 and all parsed values are nonnegative). -/
def parse_value (s : String) : ℚ := (parseFloatQ (cleanValue s)).getD 0

/-- One historical observation: a row of the Prophet input dataframe. -/
structure TP where
  ds : Int
  y : ℚ
deriving DecidableEq, Repr

/-- One row of a forecast dataframe. -/
structure FRow where
  ds : Int
  yhat : ℚ
  yhat_lower : ℚ
  yhat_upper : ℚ
deriving DecidableEq, Repr

/-- One entry of the output `predictions` array. -/
structure PredPoint where
  time : String
  value : Int
  lower : Int
  upper : Int
  is_prediction : Bool
  is_simple_prediction : Bool
deriving DecidableEq, Repr

/-- One entry of the output `historical` array. -/
structure HistPoint where
  time : String
  value : Int
  is_actual : Bool
deriving DecidableEq, Repr

/-- The output document of `generate_predictions`. -/
structure PredictionResult where
  historical : List HistPoint
  predictions : List PredPoint
  best_player_count : Int
  explanations : List String
  confidence_score : ℚ
  is_hourly : Bool
  is_simple_prediction : Bool
  warning : Option String
deriving DecidableEq, Repr

/-- Ambient state: the clock and the `np.random` draws, plus the external
`pd.to_datetime` parser and `strftime("%b %d")` formatter. -/
structure Env where
  now : Int
  nowHour : Int
  nowMidnight : Int
  nowYear : Int
  randU : Nat → ℚ
  randSynth : Nat → Int
  randPre : Nat → ℚ
  pdToDatetime : String → Option Int
  strftimeBD : Int → String

/-- Outcome of the external Prophet interaction. -/
inductive FitOutcome where
  | ok (pred : Int → ℚ × ℚ × ℚ)
  | fail (msg : String)
  | raise (msg : String)

/-- `parse_time` from the source: clock-style labels are anchored to today's
midnight; otherwise the current year is appended when no comma is present and
the generic parser is used. `none` models the caught exception / `None`. -/
def parse_time (env : Env) (s : String) : Option Int :=
  let up := s.toUpper
  if strHasSub s ":" || strHasSub up "AM" || strHasSub up "PM" then
    let hourStr :=
      if strHasSub s ":" then (s.splitOn ":").headD ""
      else String.mk (s.toList.filter Char.isDigit)
    match hourStr.trim.toNat? with
    | none => none
    | some h0 =>
      let h : Int :=
        if strHasSub up "PM" && decide (h0 < 12) then (h0 : Int) + 12
        else if strHasSub up "AM" && decide (h0 = 12) then 0
        else (h0 : Int)
      if 24 ≤ h then none else some (env.nowMidnight + h * 3600)
  else
    let s2 := if strHasSub s "," then s else s ++ ", " ++ toString env.nowYear
    env.pdToDatetime s2

/-- A raw row of `table_rows`: a JSON object (string cells) or some non-dict
value. -/
inductive RowV where
  | dict (kvs : List (String × String))
  | nonDict
deriving DecidableEq

/-- The shapes the `data` argument of `generate_predictions` can take.
A dict without a `table_rows` field behaves like one with an empty list
(both are falsy), so `obj []` covers it. -/
inductive PyData where
  | obj (tableRows : List RowV)
  | arr (xs : List PyData)
  | atom

def rowIsDict : RowV → Bool
  | RowV.dict _ => true
  | RowV.nonDict => false

def rowKVs : RowV → List (String × String)
  | RowV.dict kvs => kvs
  | RowV.nonDict => []

/-- The `data = data[0]` unwrap plus `data.get('table_rows', [])` plus the
falsy check; `Except.error` models an `AttributeError` escaping to the
caller (non-dict after unwrapping). -/
def getRows : PyData → Except String (Option (List RowV))
  | PyData.obj rows => Except.ok (if rows.isEmpty then none else some rows)
  | PyData.arr [] => Except.ok none
  | PyData.arr (x :: _) =>
    match x with
    | PyData.obj rows => Except.ok (if rows.isEmpty then none else some rows)
    | _ => Except.error "AttributeError"
  | PyData.atom => Except.error "AttributeError"

/-- One cell of the hourly-pattern scan of the first rows. -/
def cellLooksHourly (k v : String) : Bool :=
  strHasSub v ":" || strHasSub v.toUpper "AM" || strHasSub v.toUpper "PM" ||
  strHasSub k.toLower "hour" || strHasSub k.toLower "time"

/-- The `is_hourly` detection over the first up-to-3 rows. -/
def detectHourly (rows : List RowV) : Bool :=
  (rows.take 3).any (fun r => (rowKVs r).any (fun kv => cellLooksHourly kv.1 kv.2))

def isTimeKey (k : String) : Bool :=
  strHasSub k.toLower "time" || strHasSub k.toLower "hour"

def isValKey (k : String) : Bool :=
  strHasSub k.toLower "count" || strHasSub k.toLower "player" || strHasSub k.toLower "peak"

/-- Column selection over `table_rows[0].keys()`: the time key is the LAST
matching key (the loop keeps overwriting), value keys accumulate in order. -/
def findKeys (keys : List String) : Option String × List String :=
  keys.foldl
    (fun acc k =>
      if isTimeKey k then (some k, acc.2)
      else if isValKey k then (acc.1, acc.2 ++ [k])
      else acc)
    (none, [])

/-- Per-row maximum over candidate value columns (hourly branch). -/
def rowMaxVal (vks : List String) (kvs : List (String × String)) : ℚ :=
  vks.foldl
    (fun m k =>
      match kvs.lookup k with
      | some v => max m (parse_value v)
      | none => m)
    0

/-- One row of the hourly processing loop: kept only when the time parses
and the max candidate value is positive. -/
def hourlyPoint (env : Env) (tk : Option String) (vks : List String) (r : RowV) : Option TP :=
  match tk with
  | none => none
  | some tkey =>
    match (rowKVs r).lookup tkey with
    | none => none
    | some tval =>
      match parse_time env tval with
      | none => none
      | some t =>
        let mv := rowMaxVal vks (rowKVs r)
        if 0 < mv then some ⟨t, mv⟩ else none

def hourlyPoints (env : Env) (tk : Option String) (vks : List String) (rows : List RowV) :
    List TP :=
  rows.filterMap (hourlyPoint env tk vks)

/-- Python `int()` on a word: optional sign then digits; `none` is `ValueError`. -/
def pyIntStr (w : String) : Option Int :=
  let t := w.trim
  if t.startsWith "-" then ((t.drop 1).toNat?).map (fun n => -(n : Int))
  else if t.startsWith "+" then ((t.drop 1).toNat?).map (fun n => (n : Int))
  else (t.toNat?).map (fun n => (n : Int))

/-- `int(str(v).replace(',','').replace('K','000').split()[0])` with `none`
for `ValueError`/`IndexError` (daily branch of `preprocess_data`). -/
def firstWordInt (s : String) : Option Int :=
  let s1 := String.mk (replChar 'K' ['0', '0', '0'] (replChar ',' [] s.toList))
  match (s1.split Char.isWhitespace).filter (fun w => w ≠ "") with
  | [] => none
  | w :: _ => pyIntStr w

/-- The daily-branch value of a row: `peak`, else `player_count`, else the max
over digit-bearing cells; parse failures yield 0 (outer catch) or skip the
cell (inner catch). -/
def dailyValue (kvs : List (String × String)) : Int :=
  match kvs.lookup "peak" with
  | some v => (firstWordInt v).getD 0
  | none =>
    match kvs.lookup "player_count" with
    | some v => (firstWordInt v).getD 0
    | none =>
      kvs.foldl
        (fun p kv =>
          if kv.2.toList.any Char.isDigit then
            match firstWordInt kv.2 with
            | some n => max p n
            | none => p
          else p)
        0

/-- One row of the daily processing loop (kept when time parses and value is
positive). -/
def dailyPoint (env : Env) (r : RowV) : Option TP :=
  let kvs := rowKVs r
  match parse_time env ((kvs.lookup "time").getD "") with
  | some t =>
    let p := dailyValue kvs
    if 0 < p then some ⟨t, (p : ℚ)⟩ else none
  | none => none

def dailyPoints (env : Env) (rows : List RowV) : List TP :=
  rows.filterMap (dailyPoint env)

/-- The synthesized 24-point hourly series used when no rows parse:
`now - timedelta(hours=i)` with `np.random.randint(100, 500)` values. -/
def synthSeries (env : Env) : List TP :=
  (List.range 24).map (fun (i : Nat) => ⟨env.now - (i : Int) * 3600, env.randPre i⟩)

/-- Insertion step of the (stable) sort by `ds` modeling `sort_values(by='ds')`. -/
def insertTP (x : TP) : List TP → List TP
  | [] => [x]
  | y :: ys => if x.ds < y.ds then x :: y :: ys else y :: insertTP x ys

def sortTP (l : List TP) : List TP := l.foldr insertTP []

/-- Dataframe construction tail of `preprocess_data`: synthesize when empty,
then sort ascending by `ds`. -/
def mkDf (env : Env) (pts : List TP) : List TP :=
  sortTP (if pts.isEmpty then synthSeries env else pts)

/-- `preprocess_data` from the source. `Except.error` models an exception
escaping to the caller (it is not caught inside `generate_predictions`
either, since the call happens before the `try`). `ok none` is the
`return None, None` path. -/
def preprocess_data (env : Env) (d : PyData) : Except String (Option (List TP)) :=
  match getRows d with
  | Except.error e => Except.error e
  | Except.ok none => Except.ok none
  | Except.ok (some rows) =>
    if (rows.take 3).all rowIsDict then
      if detectHourly rows then
        if rows.all rowIsDict then
          let keys := (rowKVs (rows.headD RowV.nonDict)).map Prod.fst
          let tkvks := findKeys keys
          let vks :=
            if tkvks.2.isEmpty then keys.filter (fun k => decide (some k ≠ tkvks.1))
            else tkvks.2
          Except.ok (some (mkDf env (hourlyPoints env tkvks.1 vks rows)))
        else Except.error "TypeError"
      else
        if rows.all rowIsDict then Except.ok (some (mkDf env (dailyPoints env rows)))
        else Except.error "TypeError"
    else Except.error "AttributeError"

/-- Prophet's canonical history: sorted unique `ds` values
(`np.unique` + sort inside `Prophet.setup_dataframe`/`make_future_dataframe`). -/
def insUnique (x : Int) : List Int → List Int
  | [] => [x]
  | y :: ys => if x < y then x :: y :: ys else if x = y then y :: ys else y :: insUnique x ys

def history_dates (ds : List Int) : List Int := ds.foldr insUnique []

/-- `model.make_future_dataframe(periods, freq)` with `include_history=True`:
the (sorted unique) history followed by `periods` new stamps spaced by
`step` after the last history stamp. -/
def make_future (ds : List Int) (periods : Nat) (step : Int) : List Int :=
  let hist := history_dates ds
  hist ++ (List.range periods).map (fun (k : Nat) => listMax hist + ((k : Int) + 1) * step)

/-- One row of `model.predict`: the model's `(yhat, yhat_lower, yhat_upper)`
at a timestamp. -/
def predRow (pred : Int → ℚ × ℚ × ℚ) (t : Int) : FRow :=
  { ds := t, yhat := (pred t).1, yhat_lower := (pred t).2.1, yhat_upper := (pred t).2.2 }

/-- `model.predict(future)` through the oracle: one forecast row per future
stamp. -/
def prophet_forecast (pred : Int → ℚ × ℚ × ℚ) (ds : List Int) (periods : Nat) (step : Int) :
    List FRow :=
  (make_future ds periods step).map (predRow pred)

/-- One step of the post-processing loop of `generate_predictions` (lines
411-421). `row` is the copy produced by `iterrows`, so after `yhat` is
overwritten in the frame, `row['yhat']` still reads the ORIGINAL estimate:
the new bounds are fractions of the raw estimate, not of the dampened one. -/
def dampF (lastActual : ℚ) (maxDs : Int) (r : FRow) : FRow :=
  if maxDs < r.ds then
    { ds := r.ds, yhat := 7/10 * r.yhat + 3/10 * lastActual,
      yhat_lower := 9/10 * r.yhat, yhat_upper := 11/10 * r.yhat }
  else r

/-- The whole post-processing loop (applied to future rows only through the
timestamp guard inside `dampF`). -/
def dampen (lastActual : ℚ) (maxDs : Int) (rows : List FRow) : List FRow :=
  rows.map (dampF lastActual maxDs)

/-- The iterated projection of `generate_simple_predictions`: each step adds
the trend plus a uniform variation and clamps at 10. -/
def simpleVals (randU : Nat → ℚ) (trend : ℚ) (current : ℚ) (i k : Nat) : List ℚ :=
  match k with
  | 0 => []
  | k' + 1 =>
    let c := max 10 (current + trend + current * randU i)
    c :: simpleVals randU trend c (i + 1) k'

/-- `last_date` of `generate_simple_predictions` (the sorted frame's last
stamp, or `datetime.now()` on the empty branch). Takes the ALREADY sorted
frame. -/
def gspLast (env : Env) (df : List TP) : Int :=
  match df.getLast? with
  | none => env.now
  | some lastTp => lastTp.ds

/-- `(last_value, trend)` of `generate_simple_predictions` on the sorted
frame. On the empty branch the source sets only `last_value` and leaves
`trend` unbound (a NameError if that branch were ever reached from
`generate_predictions`; it is not, since the caller guards `df.empty`);
modeled as 0. -/
def gspTV (df : List TP) : ℚ × ℚ :=
  match df.getLast? with
  | none => (100, 0)
  | some lastTp =>
    if 3 ≤ df.length then
      let lv := (df.drop (df.length - 3)).map TP.y
      (lv.getLastD 0, (lv.getLastD 0 - lv.headD 0) / 2 * (1/2))
    else (lastTp.y, 0)

/-- `generate_simple_predictions` from the source. -/
def gsp (env : Env) (df0 : List TP) (periods : Nat) (hourly : Bool) : List FRow :=
  let step : Int := if hourly then 3600 else 86400
  let df := sortTP df0
  let vals := simpleVals env.randU (gspTV df).2 (gspTV df).1 0 periods
  ((List.range periods).zip vals).map
    (fun p =>
      { ds := gspLast env df + ((p.1 : Int) + 1) * step, yhat := p.2,
        yhat_lower := max 10 (p.2 * (95/100)), yhat_upper := p.2 * (105/100) })

/-- 12-hour clock label of a timestamp (`row['ds'].hour` formatting). -/
def fmtHour (t : Int) : String :=
  let hour := (t / 3600) % 24
  let ap := if hour < 12 then "AM" else "PM"
  let h12 := hour % 12
  let h12 := if h12 = 0 then 12 else h12
  toString h12 ++ " " ++ ap

/-- Formatting of one forecast row into an output prediction entry. -/
def fmtRow (env : Env) (hourly : Bool) (simpleFlag : Bool) (r : FRow) : PredPoint :=
  { time := if hourly then fmtHour r.ds else env.strftimeBD r.ds,
    value := pyInt r.yhat, lower := pyInt r.yhat_lower, upper := pyInt r.yhat_upper,
    is_prediction := true, is_simple_prediction := simpleFlag }

/-- `np.mean` over a rational list. -/
def ratMean (l : List ℚ) : ℚ := l.sum / (l.length : ℚ)

/-- The 12 synthetic prediction points (used by the no-data path and by the
empty-predictions backfill; both loops in the source are identical). -/
def synthPreds (env : Env) : List PredPoint :=
  (List.range 12).map
    (fun (i : Nat) =>
      let hour := (env.nowHour + (i : Int) + 1) % 24
      let ap := if hour < 12 then "AM" else "PM"
      let h12 := hour % 12
      let h12 := if h12 = 0 then 12 else h12
      let value : Int := 100 + env.randSynth i
      { time := toString h12 ++ " " ++ ap, value := value,
        lower := pyInt ((value : ℚ) * (9/10)), upper := pyInt ((value : ℚ) * (11/10)),
        is_prediction := true, is_simple_prediction := true })

/-- The synthetic result returned when preprocessing yields no dataframe. -/
def synthetic_result (env : Env) : PredictionResult :=
  { best_player_count := 100,
    explanations := ["No data available for predictions.",
                     "Using default player count recommendation."],
    confidence_score := 1/2, is_simple_prediction := true, is_hourly := true,
    warning := some "No data available. Generated synthetic predictions.",
    predictions := synthPreds env, historical := [] }

/-- The insufficient-data (`len(df) < 2`) result. -/
def insufficient_result (env : Env) (df : List TP) (periods : Nat) (hourly : Bool) :
    PredictionResult :=
  let forecast := gsp env df periods hourly
  { best_player_count := pyInt (ratMean (forecast.map FRow.yhat)),
    explanations :=
      ["Based on limited data (" ++ toString df.length ++ " data points).",
       "Using simple trend-based forecast.",
       "Average predicted player count is " ++
         toString (pyInt (ratMean (forecast.map FRow.yhat))) ++ "."],
    confidence_score := 3/5, is_simple_prediction := true, is_hourly := hourly,
    warning := some ("Insufficient data points for accurate prediction. " ++
      "Using simple trend-based forecast instead. Found " ++ toString df.length ++
      " data points, need at least 2."),
    predictions := forecast.map (fmtRow env hourly true), historical := [] }

/-- The fallback result built in the `except` handler of the main `try`. -/
def except_result (env : Env) (df : List TP) (periods : Nat) (hourly : Bool) (msg : String) :
    PredictionResult :=
  let forecast := gsp env df periods hourly
  { best_player_count := pyInt (ratMean (forecast.map FRow.yhat)),
    explanations :=
      ["Error occurred during prediction modeling.",
       "Using simple trend-based predictions instead.",
       "Average predicted player count is " ++
         toString (pyInt (ratMean (forecast.map FRow.yhat))) ++ "."],
    confidence_score := 1/2, is_simple_prediction := true, is_hourly := hourly,
    warning := some ("Error during prediction: " ++ msg ++
      ". Using simple trend-based forecast instead."),
    predictions := forecast.map (fmtRow env hourly true), historical := [] }

/-- The ultimate static fallback returned when even the simple fallback
raises. -/
def ultimate_result (msg : String) : PredictionResult :=
  { best_player_count := 100,
    explanations := ["Error occurred during prediction.",
                     "Using default recommendation of 100 players."],
    confidence_score := 2/5, is_simple_prediction := true, is_hourly := true,
    warning := some ("Prediction failed: " ++ msg ++ ". Using default values."),
    predictions := [{ time := "1 PM", value := 100, lower := 90, upper := 110,
                      is_prediction := true, is_simple_prediction := true }],
    historical := [] }

/-- `last_actual` (`df['y'].iloc[-1]`). -/
def lastY (df : List TP) : ℚ := (df.getLastD ⟨0, 0⟩).y

/-- Formatting of one historical dataframe row. -/
def histPoint (env : Env) (hourly : Bool) (p : TP) : HistPoint :=
  { time := if hourly then fmtHour p.ds else env.strftimeBD p.ds,
    value := pyInt p.y, is_actual := true }

/-- The confidence refinement `try` block: back-predictions against actuals.
A length mismatch makes the numpy subtraction raise, which the handler
swallows leaving the 0.8 default. -/
def refineConfidence (df : List TP) (forecast : List FRow) (maxDs : Int) : ℚ :=
  let y_true := df.map TP.y
  let y_pred := ((forecast.filter (fun r => decide (r.ds ≤ maxDs))).map FRow.yhat).take
    y_true.length
  if y_pred.length = y_true.length then
    let mape := ratMean (List.zipWith (fun yt yp => |(yt - yp) / yt|) y_true y_pred)
    max (2/5) (min (19/20) (1 - mape))
  else 4/5

/-- The shared tail of the main `try`: historical extraction, future-row
filtering, confidence scoring, best-value recommendation, explanations, and
the empty-predictions backfill. `modelNone` is Python's `model is None`. -/
def assemble (env : Env) (df : List TP) (forecast : List FRow) (modelNone : Bool)
    (hourly : Bool) : PredictionResult :=
  let historical := df.map (histPoint env hourly)
  let maxDs := listMax (df.map TP.ds)
  let future_forecast := forecast.filter (fun r => decide (maxDs < r.ds))
  let preds := future_forecast.map (fmtRow env hourly modelNone)
  let confidence :=
    if modelNone = false ∧ 3 < df.length then refineConfidence df forecast maxDs else 4/5
  let best_expl : Int × List String :=
    if preds.isEmpty then
      (100, ["Insufficient data for accurate predictions.",
             "A default player count of 100 is recommended."])
    else
      let avg := pyInt ((((preds.map PredPoint.value).foldl (· + ·) 0 : Int) : ℚ) /
        (preds.length : ℚ))
      let maxPred := listMax (preds.map PredPoint.value)
      let lav : Int := if historical.isEmpty then 100
        else (historical.getLastD ⟨"", 0, true⟩).value
      let best := pyInt ((6/10 : ℚ) * (lav : ℚ) + (3/10 : ℚ) * (avg : ℚ) +
        (1/10 : ℚ) * (maxPred : ℚ))
      let e2txt := if hourly then " players per hour." else " players per day."
      (best,
        ["Based on historical data patterns over " ++ toString df.length ++ " time periods.",
         "Average predicted player count is " ++ toString avg ++ e2txt,
         "Peak predicted player count is " ++ toString maxPred ++ " players."] ++
        (if modelNone then ["Using simplified prediction model due to limited data."] else []))
  let preds_warn : List PredPoint × Option String :=
    if preds.isEmpty then
      (synthPreds env,
       some "Couldn\x27t generate predictions from data, using synthetic data instead.")
    else (preds, none)
  { historical := historical, predictions := preds_warn.1,
    best_player_count := best_expl.1, explanations := best_expl.2,
    confidence_score := confidence, is_hourly := hourly,
    is_simple_prediction := modelNone, warning := preds_warn.2 }

/-- The frequency classification of `generate_predictions` (lines 343-346):
hourly iff the series has at least two points and the gap between the first
two is under a day; otherwise `is_hourly` keeps its `False` default. -/
def isHourlyOf (df : List TP) : Bool :=
  match df with
  | a :: b :: _ => decide (b.ds - a.ds < 86400)
  | _ => false

/-- The core of `generate_predictions` after preprocessing (the part of the
source operating on the dataframe `df`). -/
def gp_df (env : Env) (fit : FitOutcome) (df : List TP) : PredictionResult :=
  if df.isEmpty then synthetic_result env
  else
    let hourly := isHourlyOf df
    let periods := if hourly then 12 else 30
    let step : Int := if hourly then 3600 else 86400
    if df.length < 2 then insufficient_result env df periods hourly
    else
      match fit with
      | FitOutcome.raise msg => except_result env df periods hourly msg
      | FitOutcome.fail _ => assemble env df (gsp env df periods hourly) true hourly
      | FitOutcome.ok pred =>
        assemble env df
          (dampen (lastY df) (listMax (df.map TP.ds))
            (prophet_forecast pred (df.map TP.ds) periods step))
          false hourly

/-- `generate_predictions` end to end: preprocessing (outside the `try`, so
its exceptions propagate) followed by the core. -/
def generate_predictions (env : Env) (fit : FitOutcome) (d : PyData) :
    Except String PredictionResult :=
  match preprocess_data env d with
  | Except.error e => Except.error e
  | Except.ok none => Except.ok (synthetic_result env)
  | Except.ok (some df) => Except.ok (gp_df env fit df)

/-- Inputs with the shape `generate_predictions` can traverse without an
exception escaping: a dict (or an empty list, or a list whose first element
is a dict) whose `table_rows` entries are all dicts. -/
def wellShapedB : PyData → Bool
  | PyData.obj rows => rows.all rowIsDict
  | PyData.arr [] => true
  | PyData.arr (x :: _) =>
    match x with
    | PyData.obj rows => rows.all rowIsDict
    | _ => false
  | PyData.atom => false

/-- The bound invariant claimed for output prediction points. -/
def predInv (p : PredPoint) : Prop :=
  0 ≤ p.lower ∧ p.lower ≤ p.value ∧ p.value ≤ p.upper

/-- The back-test mean absolute percentage error of the fitted model over
the historical window, `np.mean(np.abs((y_true - y_pred) / y_true))`. -/
def mapeOf (pred : Int → ℚ × ℚ × ℚ) (df : List TP) : ℚ :=
  ratMean (df.map (fun p => |(p.y - (pred p.ds).1) / p.y|))

/-- A concrete environment used by witnesses and counterexamples. -/
def envC : Env :=
  { now := 100000, nowHour := 13, nowMidnight := 86400, nowYear := 2026,
    randU := fun _ => 0, randSynth := fun _ => 0, randPre := fun _ => 100,
    pdToDatetime := fun _ => none, strftimeBD := fun _ => "d" }

/-- A concrete sorted 2-point hourly series. -/
def df2 : List TP := [⟨0, 100⟩, ⟨3600, 200⟩]

/-- A concrete sorted 5-point hourly series with constant value 10. -/
def df5 : List TP := [⟨0, 10⟩, ⟨3600, 10⟩, ⟨7200, 10⟩, ⟨10800, 10⟩, ⟨14400, 10⟩]

lemma pyInt_of_nonneg {q : ℚ} (h : 0 ≤ q) : pyInt q = ⌊q⌋ := by
  simp [pyInt, h]

lemma pyInt_nonneg {q : ℚ} (h : 0 ≤ q) : 0 ≤ pyInt q := by
  rw [pyInt_of_nonneg h]
  exact Int.floor_nonneg.2 h

lemma pyInt_mono {a b : ℚ} (ha : 0 ≤ a) (hab : a ≤ b) : pyInt a ≤ pyInt b := by
  rw [pyInt_of_nonneg ha, pyInt_of_nonneg (ha.trans hab)]
  exact Int.floor_le_floor hab

lemma pyInt_intCast (n : Int) : pyInt (n : ℚ) = n := by
  unfold pyInt
  split <;> simp

lemma le_foldl_max (l : List Int) (b : Int) : b ≤ l.foldl max b := by
  induction l generalizing b with
  | nil => exact le_refl b
  | cons x xs ih => exact le_trans (le_max_left b x) (ih (max b x))

lemma mem_le_foldl_max {y : Int} {l : List Int} (b : Int) (h : y ∈ l) :
    y ≤ l.foldl max b := by
  induction l generalizing b with
  | nil => cases h
  | cons x xs ih =>
    rcases List.mem_cons.1 h with rfl | hy
    · exact le_trans (le_max_right b y) (le_foldl_max xs _)
    · exact ih _ hy

lemma le_listMax {y : Int} {l : List Int} (h : y ∈ l) : y ≤ listMax l := by
  cases l with
  | nil => cases h
  | cons x xs =>
    rcases List.mem_cons.1 h with rfl | hy
    · exact le_foldl_max xs y
    · exact mem_le_foldl_max x hy

lemma foldl_max_mem (l : List Int) (b : Int) : l.foldl max b = b ∨ l.foldl max b ∈ l := by
  induction l generalizing b with
  | nil => exact Or.inl rfl
  | cons x xs ih =>
    rw [List.foldl_cons]
    rcases ih (max b x) with h | h
    · rcases max_choice b x with he | he
      · exact Or.inl (h.trans he)
      · refine Or.inr ?_
        rw [h.trans he]
        exact List.mem_cons_self x xs
    · exact Or.inr (List.mem_cons_of_mem _ h)

lemma listMax_mem {l : List Int} (h : l ≠ []) : listMax l ∈ l := by
  cases l with
  | nil => cases h rfl
  | cons x xs =>
    show xs.foldl max x ∈ x :: xs
    rcases foldl_max_mem xs x with he | hm
    · rw [he]; exact List.mem_cons_self x xs
    · exact List.mem_cons_of_mem _ hm

lemma simpleVals_length (r : Nat → ℚ) (t c : ℚ) (i k : Nat) :
    (simpleVals r t c i k).length = k := by
  induction k generalizing c i with
  | zero => rfl
  | succ k ih => simp [simpleVals, ih]

lemma simpleVals_ge_ten (r : Nat → ℚ) (t c : ℚ) (i k : Nat) :
    ∀ x ∈ simpleVals r t c i k, 10 ≤ x := by
  induction k generalizing c i with
  | zero => intro x hx; cases hx
  | succ k ih =>
    intro x hx
    rw [simpleVals, List.mem_cons] at hx
    rcases hx with rfl | hx
    · exact le_max_left _ _
    · exact ih _ _ x hx

lemma gsp_length (env : Env) (df : List TP) (periods : Nat) (hourly : Bool) :
    (gsp env df periods hourly).length = periods := by
  simp [gsp, List.length_zip, simpleVals_length]

lemma gsp_row {env : Env} {df : List TP} {periods : Nat} {hourly : Bool} {r : FRow}
    (hr : r ∈ gsp env df periods hourly) :
    10 ≤ r.yhat ∧ r.yhat_lower = max 10 (r.yhat * (95/100)) ∧
      r.yhat_upper = r.yhat * (105/100) := by
  unfold gsp at hr
  simp only [List.mem_map] at hr
  obtain ⟨p, hp, rfl⟩ := hr
  exact ⟨simpleVals_ge_ten _ _ _ _ _ _ (List.of_mem_zip hp).2, rfl, rfl⟩

lemma gsp_ds {env : Env} {df : List TP} {periods : Nat} {hourly : Bool} {r : FRow}
    (hr : r ∈ gsp env df periods hourly) :
    ∃ k : Nat, r.ds = gspLast env (sortTP df) +
      ((k : Int) + 1) * (if hourly then (3600 : Int) else 86400) := by
  unfold gsp at hr
  simp only [List.mem_map] at hr
  obtain ⟨p, hp, rfl⟩ := hr
  exact ⟨p.1, rfl⟩

lemma mem_insertTP {a x : TP} {l : List TP} : a ∈ insertTP x l ↔ a = x ∨ a ∈ l := by
  induction l with
  | nil => simp [insertTP]
  | cons y ys ih =>
    unfold insertTP
    split
    · simp only [List.mem_cons]
    · simp only [List.mem_cons, ih]
      tauto

lemma pairwise_insertTP (x : TP) {l : List TP}
    (h : l.Pairwise (fun a b => a.ds ≤ b.ds)) :
    (insertTP x l).Pairwise (fun a b => a.ds ≤ b.ds) := by
  induction l with
  | nil => simp [insertTP]
  | cons y ys ih =>
    rw [List.pairwise_cons] at h
    obtain ⟨hy, hys⟩ := h
    unfold insertTP
    split
    · rename_i hlt
      refine List.Pairwise.cons ?_ (List.Pairwise.cons hy hys)
      intro b hb
      rcases List.mem_cons.1 hb with rfl | hb
      · exact le_of_lt hlt
      · exact le_trans (le_of_lt hlt) (hy b hb)
    · rename_i hnlt
      refine List.Pairwise.cons ?_ (ih hys)
      intro b hb
      rcases mem_insertTP.1 hb with rfl | hb
      · exact le_of_not_lt hnlt
      · exact hy b hb

lemma sortTP_pairwise (l : List TP) : (sortTP l).Pairwise (fun a b => a.ds ≤ b.ds) := by
  induction l with
  | nil => simp [sortTP]
  | cons x xs ih => exact pairwise_insertTP x ih

lemma getLast?_mem : ∀ {l : List TP} {a : TP}, l.getLast? = some a → a ∈ l := by
  intro l
  induction l with
  | nil => intro a h; cases h
  | cons x xs ih =>
    intro a h
    cases xs with
    | nil =>
      simp [List.getLast?] at h
      simp [h]
    | cons y ys =>
      rw [List.getLast?_cons_cons] at h
      exact List.mem_cons_of_mem _ (ih h)

lemma pairwise_le_getLast : ∀ {l : List TP} {last : TP},
    l.Pairwise (fun a b => a.ds ≤ b.ds) → l.getLast? = some last →
    ∀ p ∈ l, p.ds ≤ last.ds := by
  intro l
  induction l with
  | nil => intro last _ h; cases h
  | cons x xs ih =>
    intro last hp hl p hmem
    rw [List.pairwise_cons] at hp
    cases xs with
    | nil =>
      simp [List.getLast?] at hl
      rcases List.mem_singleton.1 hmem with rfl
      simp [hl]
    | cons y ys =>
      rw [List.getLast?_cons_cons] at hl
      rcases List.mem_cons.1 hmem with rfl | hmem
      · exact le_trans (hp.1 last (getLast?_mem hl)) (le_refl _)
      · exact ih hp.2 hl p hmem

lemma mem_insUnique {a x : Int} {l : List Int} : a ∈ insUnique x l ↔ a = x ∨ a ∈ l := by
  induction l with
  | nil => simp [insUnique]
  | cons y ys ih =>
    unfold insUnique
    split
    · simp only [List.mem_cons]
    · split
      · rename_i hxy
        subst hxy
        simp only [List.mem_cons]
        tauto
      · simp only [List.mem_cons, ih]
        tauto

lemma mem_history_dates {a : Int} {l : List Int} : a ∈ history_dates l ↔ a ∈ l := by
  induction l with
  | nil => simp [history_dates]
  | cons x xs ih =>
    show a ∈ insUnique x (history_dates xs) ↔ _
    rw [mem_insUnique, ih]
    simp [List.mem_cons]

lemma history_dates_ne_nil {l : List Int} (h : l ≠ []) : history_dates l ≠ [] := by
  cases l with
  | nil => exact absurd rfl h
  | cons x xs =>
    intro hnil
    have hx : x ∈ history_dates (x :: xs) :=
      mem_history_dates.2 (List.mem_cons_self x xs)
    rw [hnil] at hx
    cases hx

lemma listMax_history_dates {l : List Int} (h : l ≠ []) :
    listMax (history_dates l) = listMax l := by
  apply le_antisymm
  · exact le_listMax (mem_history_dates.1 (listMax_mem (history_dates_ne_nil h)))
  · exact le_listMax (mem_history_dates.2 (listMax_mem h))

lemma dampF_ds (a : ℚ) (m : Int) (r : FRow) : (dampF a m r).ds = r.ds := by
  unfold dampF
  split <;> rfl

lemma dampF_of_not_lt {a : ℚ} {m : Int} {r : FRow} (h : ¬ m < r.ds) : dampF a m r = r := by
  unfold dampF
  exact if_neg h

lemma dampF_of_lt {a : ℚ} {m : Int} {r : FRow} (h : m < r.ds) :
    dampF a m r =
      { ds := r.ds, yhat := 7/10 * r.yhat + 3/10 * a,
        yhat_lower := 9/10 * r.yhat, yhat_upper := 11/10 * r.yhat } := by
  unfold dampF
  exact if_pos h

lemma zipWith_map_same {α β γ δ : Type} (f : α → β) (g : α → γ) (h : β → γ → δ)
    (l : List α) :
    List.zipWith h (l.map f) (l.map g) = l.map (fun x => h (f x) (g x)) := by
  induction l with
  | nil => rfl
  | cons x xs ih => simp only [List.map_cons, List.zipWith_cons_cons, ih]

lemma make_future_eq (ds : List Int) (hne : ds ≠ []) (periods : Nat) (step : Int) :
    make_future ds periods step =
      history_dates ds ++
        (List.range periods).map (fun (k : Nat) => listMax ds + ((k : Int) + 1) * step) := by
  simp only [make_future]
  rw [listMax_history_dates hne]

lemma seasonal_parts (pred : Int → ℚ × ℚ × ℚ) (a : ℚ) (df : List TP) (hne : df ≠ [])
    (periods : Nat) (step : Int) :
    dampen a (listMax (df.map TP.ds)) (prophet_forecast pred (df.map TP.ds) periods step) =
      (history_dates (df.map TP.ds)).map
        (fun t => dampF a (listMax (df.map TP.ds)) (predRow pred t)) ++
      (List.range periods).map
        (fun (k : Nat) => dampF a (listMax (df.map TP.ds))
          (predRow pred (listMax (df.map TP.ds) + ((k : Int) + 1) * step))) := by
  have hds : df.map TP.ds ≠ [] := fun h => hne (List.map_eq_nil_iff.1 h)
  unfold prophet_forecast dampen
  rw [make_future_eq _ hds, List.map_append, List.map_append]
  simp only [List.map_map]
  rfl

lemma seasonal_future (pred : Int → ℚ × ℚ × ℚ) (a : ℚ) (df : List TP) (hne : df ≠ [])
    (periods : Nat) (step : Int) (hstep : 0 < step) :
    (dampen a (listMax (df.map TP.ds))
        (prophet_forecast pred (df.map TP.ds) periods step)).filter
        (fun r => decide (listMax (df.map TP.ds) < r.ds)) =
      (List.range periods).map
        (fun (k : Nat) =>
          ({ ds := listMax (df.map TP.ds) + ((k : Int) + 1) * step,
             yhat := 7/10 * (pred (listMax (df.map TP.ds) + ((k : Int) + 1) * step)).1 +
               3/10 * a,
             yhat_lower := 9/10 * (pred (listMax (df.map TP.ds) + ((k : Int) + 1) * step)).1,
             yhat_upper :=
               11/10 * (pred (listMax (df.map TP.ds) + ((k : Int) + 1) * step)).1 } : FRow)) := by
  have hfut : ∀ k : Nat,
      listMax (df.map TP.ds) < listMax (df.map TP.ds) + ((k : Int) + 1) * step := by
    intro k
    have hk : (0 : Int) < ((k : Int) + 1) * step := mul_pos (by positivity) hstep
    omega
  rw [seasonal_parts pred a df hne periods step, List.filter_append]
  have h1 : (((history_dates (df.map TP.ds)).map
      (fun t => dampF a (listMax (df.map TP.ds)) (predRow pred t))).filter
        (fun r => decide (listMax (df.map TP.ds) < r.ds))) = [] := by
    rw [List.filter_eq_nil_iff]
    intro r hr
    obtain ⟨t, ht, rfl⟩ := List.mem_map.1 hr
    have hle : t ≤ listMax (df.map TP.ds) := le_listMax (mem_history_dates.1 ht)
    rw [dampF_ds]
    simp only [predRow, decide_eq_true_eq]
    omega
  rw [h1, List.nil_append]
  have h2 : (((List.range periods).map
      (fun (k : Nat) => dampF a (listMax (df.map TP.ds))
        (predRow pred (listMax (df.map TP.ds) + ((k : Int) + 1) * step)))).filter
        (fun r => decide (listMax (df.map TP.ds) < r.ds))) =
      ((List.range periods).map
        (fun (k : Nat) => dampF a (listMax (df.map TP.ds))
          (predRow pred (listMax (df.map TP.ds) + ((k : Int) + 1) * step)))) := by
    rw [List.filter_eq_self]
    intro r hr
    obtain ⟨k, hk, rfl⟩ := List.mem_map.1 hr
    rw [dampF_ds]
    simp only [predRow]
    exact decide_eq_true (hfut k)
  rw [h2]
  apply List.map_congr_left
  intro k hk
  rw [dampF_of_lt (show listMax (df.map TP.ds) < (predRow pred _).ds from hfut k)]
  rfl

lemma seasonal_hist (pred : Int → ℚ × ℚ × ℚ) (a : ℚ) (df : List TP)
    (hhd : history_dates (df.map TP.ds) = df.map TP.ds) (hne : df ≠ [])
    (periods : Nat) {step : Int} (hstep : 0 < step) :
    (dampen a (listMax (df.map TP.ds))
        (prophet_forecast pred (df.map TP.ds) periods step)).filter
        (fun r => decide (r.ds ≤ listMax (df.map TP.ds))) =
      (df.map TP.ds).map (predRow pred) := by
  have hfut : ∀ k : Nat,
      listMax (df.map TP.ds) < listMax (df.map TP.ds) + ((k : Int) + 1) * step := by
    intro k
    have hk : (0 : Int) < ((k : Int) + 1) * step := mul_pos (by positivity) hstep
    omega
  rw [seasonal_parts pred a df hne periods step, List.filter_append]
  have h2 : (((List.range periods).map
      (fun (k : Nat) => dampF a (listMax (df.map TP.ds))
        (predRow pred (listMax (df.map TP.ds) + ((k : Int) + 1) * step)))).filter
        (fun r => decide (r.ds ≤ listMax (df.map TP.ds)))) = [] := by
    rw [List.filter_eq_nil_iff]
    intro r hr
    obtain ⟨k, hk, rfl⟩ := List.mem_map.1 hr
    rw [dampF_ds]
    simp only [predRow, decide_eq_true_eq]
    have := hfut k
    omega
  have h1 : (((history_dates (df.map TP.ds)).map
      (fun t => dampF a (listMax (df.map TP.ds)) (predRow pred t))).filter
        (fun r => decide (r.ds ≤ listMax (df.map TP.ds)))) =
      ((history_dates (df.map TP.ds)).map
        (fun t => dampF a (listMax (df.map TP.ds)) (predRow pred t))) := by
    rw [List.filter_eq_self]
    intro r hr
    obtain ⟨t, ht, rfl⟩ := List.mem_map.1 hr
    rw [dampF_ds]
    simp only [predRow]
    exact decide_eq_true (le_listMax (mem_history_dates.1 ht))
  rw [h1, h2, List.append_nil]
  rw [hhd]
  apply List.map_congr_left
  intro t ht
  exact dampF_of_not_lt (not_lt.2 (le_listMax ht))

lemma listMax_le_gspLast (env : Env) {df : List TP}
    (hp : df.Pairwise (fun a b => a.ds ≤ b.ds)) (hne : df ≠ []) :
    listMax (df.map TP.ds) ≤ gspLast env df := by
  have hds : df.map TP.ds ≠ [] := fun h => hne (List.map_eq_nil_iff.1 h)
  obtain ⟨p, hpmem, hpds⟩ := List.mem_map.1 (listMax_mem hds)
  obtain ⟨last, hlast⟩ : ∃ a, df.getLast? = some a := by
    cases h : df.getLast? with
    | none => exact absurd (List.getLast?_eq_none_iff.1 h) hne
    | some a => exact ⟨a, rfl⟩
  unfold gspLast
  rw [hlast]
  rw [← hpds]
  exact pairwise_le_getLast hp hlast p hpmem

lemma gsp_future_gt (env : Env) {df : List TP} (hms : sortTP df = df) (hne : df ≠ [])
    {periods : Nat} {hourly : Bool} {r : FRow} (hr : r ∈ gsp env df periods hourly) :
    listMax (df.map TP.ds) < r.ds := by
  obtain ⟨k, hk⟩ := gsp_ds hr
  rw [hms] at hk
  have h1 := listMax_le_gspLast env (hms ▸ sortTP_pairwise df) hne
  have hstep : (0 : Int) < if hourly then 3600 else 86400 := by split <;> norm_num
  have hk2 : (0 : Int) < ((k : Int) + 1) * (if hourly then (3600 : Int) else 86400) :=
    mul_pos (by positivity) hstep
  omega

lemma gsp_filter_all (env : Env) {df : List TP} (hms : sortTP df = df) (hne : df ≠ [])
    (periods : Nat) (hourly : Bool) :
    (gsp env df periods hourly).filter
      (fun r => decide (listMax (df.map TP.ds) < r.ds)) = gsp env df periods hourly := by
  rw [List.filter_eq_self]
  intro r hr
  exact decide_eq_true (gsp_future_gt env hms hne hr)

lemma assemble_is_hourly (env : Env) (df : List TP) (forecast : List FRow)
    (modelNone hourly : Bool) :
    (assemble env df forecast modelNone hourly).is_hourly = hourly := rfl

lemma assemble_is_simple (env : Env) (df : List TP) (forecast : List FRow)
    (modelNone hourly : Bool) :
    (assemble env df forecast modelNone hourly).is_simple_prediction = modelNone := rfl

lemma assemble_historical (env : Env) (df : List TP) (forecast : List FRow)
    (modelNone hourly : Bool) :
    (assemble env df forecast modelNone hourly).historical =
      df.map (histPoint env hourly) := rfl

lemma assemble_confidence (env : Env) (df : List TP) (forecast : List FRow)
    (modelNone hourly : Bool) :
    (assemble env df forecast modelNone hourly).confidence_score =
      if modelNone = false ∧ 3 < df.length then
        refineConfidence df forecast (listMax (df.map TP.ds))
      else 4/5 := rfl

lemma assemble_predictions (env : Env) (df : List TP) (forecast : List FRow)
    (modelNone hourly : Bool) :
    (assemble env df forecast modelNone hourly).predictions =
      if ((forecast.filter (fun r => decide (listMax (df.map TP.ds) < r.ds))).map
            (fmtRow env hourly modelNone)).isEmpty then synthPreds env
      else (forecast.filter (fun r => decide (listMax (df.map TP.ds) < r.ds))).map
            (fmtRow env hourly modelNone) := by
  have hc := Bool.eq_false_or_eq_true (((forecast.filter
    (fun r => decide (listMax (df.map TP.ds) < r.ds))).map
      (fmtRow env hourly modelNone)).isEmpty)
  rcases hc with hc | hc <;> simp [assemble, hc]

lemma assemble_warning (env : Env) (df : List TP) (forecast : List FRow)
    (modelNone hourly : Bool) :
    (assemble env df forecast modelNone hourly).warning =
      if ((forecast.filter (fun r => decide (listMax (df.map TP.ds) < r.ds))).map
            (fmtRow env hourly modelNone)).isEmpty then
        some "Couldn\x27t generate predictions from data, using synthetic data instead."
      else none := by
  have hc := Bool.eq_false_or_eq_true (((forecast.filter
    (fun r => decide (listMax (df.map TP.ds) < r.ds))).map
      (fmtRow env hourly modelNone)).isEmpty)
  rcases hc with hc | hc <;> simp [assemble, hc]

lemma ne_nil_of_two_le {df : List TP} (h2 : 2 ≤ df.length) : df ≠ [] := by
  intro hnil
  rw [hnil] at h2
  simp at h2

lemma isEmpty_false_of_two_le {df : List TP} (h2 : 2 ≤ df.length) :
    ¬ (df.isEmpty = true) := by
  rw [List.isEmpty_iff]
  exact ne_nil_of_two_le h2

lemma gp_df_ok (env : Env) (pred : Int → ℚ × ℚ × ℚ) {df : List TP} (h2 : 2 ≤ df.length) :
    gp_df env (FitOutcome.ok pred) df =
      assemble env df
        (dampen (lastY df) (listMax (df.map TP.ds))
          (prophet_forecast pred (df.map TP.ds) (if isHourlyOf df then 12 else 30)
            (if isHourlyOf df then 3600 else 86400)))
        false (isHourlyOf df) := by
  simp only [gp_df]
  rw [if_neg (isEmpty_false_of_two_le h2), if_neg (by omega : ¬ df.length < 2)]

lemma gp_df_fail (env : Env) (msg : String) {df : List TP} (h2 : 2 ≤ df.length) :
    gp_df env (FitOutcome.fail msg) df =
      assemble env df
        (gsp env df (if isHourlyOf df then 12 else 30) (isHourlyOf df))
        true (isHourlyOf df) := by
  simp only [gp_df]
  rw [if_neg (isEmpty_false_of_two_le h2), if_neg (by omega : ¬ df.length < 2)]

lemma gp_df_raise (env : Env) (msg : String) {df : List TP} (h2 : 2 ≤ df.length) :
    gp_df env (FitOutcome.raise msg) df =
      except_result env df (if isHourlyOf df then 12 else 30) (isHourlyOf df) msg := by
  simp only [gp_df]
  rw [if_neg (isEmpty_false_of_two_le h2), if_neg (by omega : ¬ df.length < 2)]

lemma gp_df_nil (env : Env) (fit : FitOutcome) :
    gp_df env fit [] = synthetic_result env := rfl

lemma gp_df_one (env : Env) (fit : FitOutcome) (p : TP) :
    gp_df env fit [p] = insufficient_result env [p] 30 false := rfl

lemma predInv_simple_row (env : Env) (hourly flag : Bool) {r : FRow} (h10 : 10 ≤ r.yhat)
    (hl : r.yhat_lower = max 10 (r.yhat * (95/100)))
    (hu : r.yhat_upper = r.yhat * (105/100)) :
    predInv (fmtRow env hourly flag r) := by
  have h0 : (0 : ℚ) ≤ r.yhat := le_trans (by norm_num) h10
  have hl0 : (0 : ℚ) ≤ r.yhat_lower := by
    rw [hl]
    exact le_trans (by norm_num) (le_max_left _ _)
  refine ⟨pyInt_nonneg hl0, ?_, ?_⟩
  · apply pyInt_mono hl0
    rw [hl]
    apply max_le h10
    nlinarith
  · apply pyInt_mono h0
    rw [hu]
    nlinarith

lemma predInv_synth_entry (v : Int) (hv : 0 ≤ v) (tstr : String) :
    predInv ⟨tstr, v, pyInt ((v : ℚ) * (9/10)), pyInt ((v : ℚ) * (11/10)), true, true⟩ := by
  have hvq : (0 : ℚ) ≤ (v : ℚ) := by exact_mod_cast hv
  refine ⟨pyInt_nonneg (by nlinarith), ?_, ?_⟩
  · calc pyInt ((v : ℚ) * (9/10)) ≤ pyInt ((v : ℚ)) := pyInt_mono (by nlinarith) (by nlinarith)
      _ = v := pyInt_intCast v
  · calc v = pyInt ((v : ℚ)) := (pyInt_intCast v).symm
      _ ≤ pyInt ((v : ℚ) * (11/10)) := pyInt_mono hvq (by nlinarith)

lemma predInv_synthPreds {env : Env}
    (hS : ∀ i, -20 ≤ env.randSynth i ∧ env.randSynth i < 30) :
    ∀ p ∈ synthPreds env, predInv p := by
  intro p hp
  unfold synthPreds at hp
  obtain ⟨i, _, rfl⟩ := List.mem_map.1 hp
  have hv : (0 : Int) ≤ 100 + env.randSynth i := by
    have := (hS i).1
    omega
  exact predInv_synth_entry _ hv _

lemma predInv_damped (env : Env) (hourly : Bool) {y a : ℚ} (h0 : 0 ≤ y)
    (h23 : 2 * y ≤ 3 * a) (h34 : 3 * a ≤ 4 * y) (t : Int) :
    predInv (fmtRow env hourly false ⟨t, 7/10 * y + 3/10 * a, 9/10 * y, 11/10 * y⟩) := by
  have ha : (0 : ℚ) ≤ a := by nlinarith
  exact ⟨pyInt_nonneg (by nlinarith), pyInt_mono (by nlinarith) (by nlinarith),
    pyInt_mono (by nlinarith) (by nlinarith)⟩

lemma predInv_gsp_preds (env : Env) (df : List TP) (periods : Nat)
    (hourly flag : Bool) :
    ∀ p ∈ (gsp env df periods hourly).map (fmtRow env hourly flag), predInv p := by
  intro p hp
  obtain ⟨r, hr, rfl⟩ := List.mem_map.1 hp
  obtain ⟨h10, hl, hu⟩ := gsp_row hr
  exact predInv_simple_row env hourly flag h10 hl hu

lemma refineConfidence_bounds (df : List TP) (forecast : List FRow) (m : Int) :
    2/5 ≤ refineConfidence df forecast m ∧ refineConfidence df forecast m ≤ 19/20 := by
  dsimp only [refineConfidence]
  split
  · exact ⟨le_max_left _ _, max_le (by norm_num) (min_le_left _ _)⟩
  · norm_num

lemma gp_df_confidence_bounds (env : Env) (fit : FitOutcome) (df : List TP) :
    2/5 ≤ (gp_df env fit df).confidence_score ∧
      (gp_df env fit df).confidence_score ≤ 19/20 := by
  unfold gp_df
  split
  · norm_num [synthetic_result]
  · split
    · norm_num [insufficient_result]
    · cases fit with
      | raise msg => norm_num [except_result]
      | fail msg =>
        rw [assemble_confidence]
        split
        · exact refineConfidence_bounds _ _ _
        · norm_num
      | ok pred =>
        rw [assemble_confidence]
        split
        · exact refineConfidence_bounds _ _ _
        · norm_num

lemma all_take_rows {l : List RowV} (h : l.all rowIsDict = true) (n : Nat) :
    (l.take n).all rowIsDict = true := by
  rw [List.all_eq_true] at *
  intro a ha
  exact h a (List.mem_of_mem_take ha)

lemma preprocess_ok_of_rows (env : Env) (rows : List RowV)
    (hall : rows.all rowIsDict = true) (d : PyData)
    (hd : getRows d = Except.ok (if rows.isEmpty then none else some rows)) :
    ∃ o, preprocess_data env d = Except.ok o := by
  unfold preprocess_data
  rw [hd]
  by_cases he : rows.isEmpty
  · simp only [he, if_true]
    exact ⟨none, rfl⟩
  · simp only [he, Bool.false_eq_true, if_false]
    rw [if_pos (all_take_rows hall 3)]
    by_cases hdet : detectHourly rows
    · rw [if_pos hdet, if_pos hall]
      exact ⟨_, rfl⟩
    · rw [if_neg hdet, if_pos hall]
      exact ⟨_, rfl⟩

lemma preprocess_ok_of_wellShaped (env : Env) {d : PyData} (h : wellShapedB d = true) :
    ∃ o, preprocess_data env d = Except.ok o := by
  cases d with
  | atom => exact absurd h (by simp [wellShapedB])
  | obj rows => exact preprocess_ok_of_rows env rows h _ rfl
  | arr xs =>
    cases xs with
    | nil => exact ⟨none, rfl⟩
    | cons x xs =>
      cases x with
      | obj rows => exact preprocess_ok_of_rows env rows h _ rfl
      | arr ys => exact absurd h (by simp [wellShapedB])
      | atom => exact absurd h (by simp [wellShapedB])

lemma take_map_length {α β : Type} (f : α → β) (l : List α) :
    (l.map f).take l.length = l.map f := by
  rw [show l.length = (l.map f).length from (List.length_map l f).symm]
  exact List.take_length _

lemma refine_ok (pred : Int → ℚ × ℚ × ℚ) {df : List TP}
    (hhd : history_dates (df.map TP.ds) = df.map TP.ds) (hne : df ≠ [])
    (periods : Nat) {step : Int} (hstep : 0 < step) :
    refineConfidence df
      (dampen (lastY df) (listMax (df.map TP.ds))
        (prophet_forecast pred (df.map TP.ds) periods step))
      (listMax (df.map TP.ds)) =
    max (2/5) (min (19/20) (1 - mapeOf pred df)) := by
  dsimp only [refineConfidence]
  rw [seasonal_hist pred (lastY df) df hhd hne periods hstep, List.map_map, List.map_map]
  simp only [List.length_map]
  rw [take_map_length]
  simp only [List.length_map]
  rw [if_pos trivial, zipWith_map_same]
  rfl

lemma gsp_ne_nil (env : Env) (df : List TP) {periods : Nat} (hp : 0 < periods)
    (hourly : Bool) : gsp env df periods hourly ≠ [] := by
  intro h
  have hl := gsp_length env df periods hourly
  rw [h] at hl
  simp only [List.length_nil] at hl
  omega

lemma map_isEmpty_false {α β : Type} {l : List α} (h : l ≠ []) (f : α → β) :
    (l.map f).isEmpty = false := by
  cases l with
  | nil => exact absurd rfl h
  | cons x xs => rfl

lemma isEmpty_range_map_map {α β : Type} (F : Nat → α) (G : α → β) {n : Nat} (hn : 0 < n) :
    (((List.range n).map F).map G).isEmpty = false := by
  apply map_isEmpty_false
  intro hmap
  have hr : List.range n = [] := List.map_eq_nil_iff.1 hmap
  rw [List.range_eq_nil] at hr
  omega

lemma gp_df_ok_h (env : Env) (pred : Int → ℚ × ℚ × ℚ) {df : List TP} (h2 : 2 ≤ df.length)
    (hh : isHourlyOf df = true) :
    gp_df env (FitOutcome.ok pred) df =
      assemble env df
        (dampen (lastY df) (listMax (df.map TP.ds))
          (prophet_forecast pred (df.map TP.ds) 12 3600))
        false true := by
  rw [gp_df_ok env pred h2, hh]
  rfl

lemma replChar_of_not_mem {c : Char} (rep : List Char) {l : List Char}
    (h : ∀ x ∈ l, x ≠ c) : replChar c rep l = l := by
  induction l with
  | nil => rfl
  | cons x xs ih =>
    show (if x = c then rep else [x]) ++ replChar c rep xs = x :: xs
    rw [if_neg (h x (List.mem_cons_self x xs)),
      ih (fun y hy => h y (List.mem_cons_of_mem x hy))]
    rfl

lemma replChar_append (c : Char) (rep : List Char) (l1 l2 : List Char) :
    replChar c rep (l1 ++ l2) = replChar c rep l1 ++ replChar c rep l2 := by
  induction l1 with
  | nil => rfl
  | cons x xs ih =>
    show (if x = c then rep else [x]) ++ replChar c rep (xs ++ l2) = _
    rw [ih]
    show _ = ((if x = c then rep else [x]) ++ replChar c rep xs) ++ replChar c rep l2
    rw [List.append_assoc]

lemma digit_ne_comma {x : Char} (h : x.isDigit = true) : x ≠ ',' := by
  intro he
  rw [he] at h
  exact absurd h (by decide)

lemma digit_ne_K {x : Char} (h : x.isDigit = true) : x ≠ 'K' := by
  intro he
  rw [he] at h
  exact absurd h (by decide)

lemma digit_ne_dot {x : Char} (h : x.isDigit = true) : x ≠ '.' := by
  intro he
  rw [he] at h
  exact absurd h (by decide)

lemma splitOnDot_no_dot {l : List Char} (h : ∀ x ∈ l, x ≠ '.') : splitOnDot l = [l] := by
  induction l with
  | nil => rfl
  | cons x xs ih =>
    show (if x = '.' then [] :: splitOnDot xs
      else
        match splitOnDot xs with
        | [] => [[x]]
        | h :: t => (x :: h) :: t) = [x :: xs]
    rw [if_neg (h x (List.mem_cons_self x xs)),
      ih (fun y hy => h y (List.mem_cons_of_mem x hy))]

lemma foldl_digits (b : List Char) : ∀ n : Nat,
    b.foldl (fun n c => n * 10 + (c.toNat - 48)) n =
      n * 10 ^ b.length + b.foldl (fun n c => n * 10 + (c.toNat - 48)) 0 := by
  induction b with
  | nil => intro n; simp
  | cons x xs ih =>
    intro n
    rw [List.foldl_cons, List.foldl_cons, ih, ih (0 * 10 + (x.toNat - 48))]
    simp [List.length_cons, pow_succ]
    ring

lemma digitsToNat_append (a b : List Char) :
    digitsToNat (a ++ b) = digitsToNat a * 10 ^ b.length + digitsToNat b := by
  unfold digitsToNat
  rw [List.foldl_append, foldl_digits]

lemma mem_ite_preds {env : Env} {p : PredPoint} {c : Bool} {l : List PredPoint}
    (hp : p ∈ (if c = true then synthPreds env else l)) :
    p ∈ synthPreds env ∨ p ∈ l := by
  split at hp
  · exact Or.inl hp
  · exact Or.inr hp

/-- C1 (counterexample): the claim says `generate_predictions` never
propagates an exception for ANY input, but a non-dict input (e.g. the
integer `42`) makes `data.get('table_rows', [])` raise `AttributeError`
before the `try` block is entered, and the exception escapes to the
caller. -/
theorem C1_counterexample :
    generate_predictions envC (FitOutcome.fail "e") PyData.atom =
      Except.error "AttributeError" := rfl

/-- C1 (amended): for every well-shaped input — a dict (or an empty list,
or a list whose first element is a dict) all of whose `table_rows` entries
are dicts — `generate_predictions` returns a result and never propagates an
exception; the no-data, insufficient-data, modeling-exception and
total-failure paths all return a result with the `warning` field set.
(Non-dict-shaped inputs raise, and the silent fit-failure fallback sets no
warning: see C1_counterexample and C5.) -/
theorem C1_amended (env : Env) (fit : FitOutcome) (d : PyData)
    (h : wellShapedB d = true) :
    (∃ r, generate_predictions env fit d = Except.ok r) ∧
    (synthetic_result env).warning.isSome = true ∧
    (∀ df periods hourly,
      (insufficient_result env df periods hourly).warning.isSome = true) ∧
    (∀ df periods hourly msg,
      (except_result env df periods hourly msg).warning.isSome = true) ∧
    (∀ msg, (ultimate_result msg).warning.isSome = true) := by
  refine ⟨?_, rfl, fun _ _ _ => rfl, fun _ _ _ _ => rfl, fun _ => rfl⟩
  obtain ⟨o, ho⟩ := preprocess_ok_of_wellShaped env h
  unfold generate_predictions
  rw [ho]
  cases o with
  | none => exact ⟨_, rfl⟩
  | some df => exact ⟨_, rfl⟩

/-- C1 (witness): a concrete well-shaped input on which the amended theorem
yields a returned result. -/
theorem C1_witness :
    ∃ r, generate_predictions envC (FitOutcome.fail "e")
      (PyData.obj [RowV.dict [("time", "1 PM"), ("peak", "50")]]) = Except.ok r :=
  (C1_amended envC (FitOutcome.fail "e")
    (PyData.obj [RowV.dict [("time", "1 PM"), ("peak", "50")]]) (by decide)).1

/-- C6 (counterexample): the claim says a series with fewer than 2 points
defaults to HOURLY, but on a 1-point series `is_hourly` keeps its `False`
default, the run is classified DAILY, and 30 (not 12) predictions are
produced. -/
theorem C6_counterexample :
    (gp_df envC (FitOutcome.fail "x") [⟨0, 5⟩]).is_hourly = false ∧
    (gp_df envC (FitOutcome.fail "x") [⟨0, 5⟩]).predictions.length = 30 := by
  constructor
  · rfl
  · rw [gp_df_one]
    show ((gsp envC [⟨0, 5⟩] 30 false).map (fmtRow envC false true)).length = 30
    rw [List.length_map, gsp_length]

/-- C6 (amended): for a series with at least 2 points the run is classified
hourly exactly when the gap between the first two points is under 86400
seconds; a 1-point series keeps the DAILY default (`is_hourly = false`,
horizon 30), and a 0-point series takes the synthetic path with
`is_hourly = true` and 12 predictions. -/
theorem C6_amended (env : Env) (fit : FitOutcome) :
    (∀ (a b : TP) (rest : List TP),
      (gp_df env fit (a :: b :: rest)).is_hourly = decide (b.ds - a.ds < 86400)) ∧
    (∀ p : TP, (gp_df env fit [p]).is_hourly = false ∧
      (gp_df env fit [p]).predictions.length = 30) ∧
    ((gp_df env fit []).is_hourly = true ∧
      (gp_df env fit []).predictions.length = 12) := by
  refine ⟨?_, ?_, rfl, ?_⟩
  · intro a b rest
    have h2 : 2 ≤ (a :: b :: rest).length := by
      simp only [List.length_cons]
      omega
    cases fit with
    | raise msg => rw [gp_df_raise env msg h2]; rfl
    | fail msg => rw [gp_df_fail env msg h2, assemble_is_hourly]; rfl
    | ok pred => rw [gp_df_ok env pred h2, assemble_is_hourly]; rfl
  · intro p
    refine ⟨rfl, ?_⟩
    rw [gp_df_one]
    show ((gsp env [p] 30 false).map (fmtRow env false true)).length = 30
    rw [List.length_map, gsp_length]
  · show (synthPreds env).length = 12
    unfold synthPreds
    rw [List.length_map, List.length_range]

/-- C10: on every degraded path — a series with fewer than 2 parsed points,
the fallback after an exception escaping the modeling block, and the
ultimate static fallback — the returned `historical` array is empty, even
when a point parsed successfully. -/
theorem C10 (env : Env) (fit : FitOutcome) (df dfr : List TP) (msg : String)
    (h1 : df.length < 2) (h2 : 2 ≤ dfr.length) :
    (gp_df env fit df).historical = [] ∧
    (gp_df env (FitOutcome.raise msg) dfr).historical = [] ∧
    (ultimate_result msg).historical = [] := by
  refine ⟨?_, ?_, rfl⟩
  · cases df with
    | nil => rfl
    | cons a t =>
      cases t with
      | nil => rfl
      | cons b u =>
        simp only [List.length_cons] at h1
        omega
  · rw [gp_df_raise env msg h2]
    rfl

/-- C10 (witness): concrete 1-point and 2-point runs with empty
`historical`. -/
theorem C10_witness :
    (gp_df envC (FitOutcome.fail "e") [⟨0, 5⟩]).historical = [] ∧
    (gp_df envC (FitOutcome.raise "e") df2).historical = [] ∧
    (ultimate_result "e").historical = [] :=
  C10 envC (FitOutcome.fail "e") [⟨0, 5⟩] df2 "e" (by decide) (by decide)

/-- C2 (counterexample): the claim says a 2-point series takes the
insufficient-data path (the spec's "fewer than 5 points" threshold), but
the source only checks `len(df) < 2`: on a 2-point hourly series with a
successful fit the seasonal path is taken — `is_simple_prediction` is
false and no insufficiency warning is attached. -/
theorem C2_counterexample :
    (gp_df envC (FitOutcome.ok (fun _ => ((100 : ℚ), 90, 110))) df2).is_simple_prediction =
      false ∧
    (gp_df envC (FitOutcome.ok (fun _ => ((100 : ℚ), 90, 110))) df2).warning = none ∧
    (gp_df envC (FitOutcome.ok (fun _ => ((100 : ℚ), 90, 110))) df2).historical ≠ [] := by
  refine ⟨rfl, rfl, by decide⟩

/-- C2 (amended): only series with fewer than 2 points take the
insufficient-data path; any series with at least 2 points (including 2-4
points) attempts the seasonal model. A 2-point hourly series with a
successful fit yields 12 predictions with `is_simple_prediction = false`
and no warning, while a 1-point series takes the insufficient-data path
with `is_simple_prediction = true` and a warning. -/
theorem C2_amended (env : Env) (pred : Int → ℚ × ℚ × ℚ) (df : List TP)
    (h2 : 2 ≤ df.length) (hh : isHourlyOf df = true) :
    (gp_df env (FitOutcome.ok pred) df).is_simple_prediction = false ∧
    (gp_df env (FitOutcome.ok pred) df).warning = none ∧
    (gp_df env (FitOutcome.ok pred) df).predictions.length = 12 ∧
    (∀ (fit : FitOutcome) (p : TP),
      (gp_df env fit [p]).is_simple_prediction = true ∧
      (gp_df env fit [p]).warning.isSome = true) := by
  have hne := ne_nil_of_two_le h2
  have hfut := seasonal_future pred (lastY df) df hne 12 3600 (by norm_num)
  refine ⟨?_, ?_, ?_, fun fit p => ⟨rfl, rfl⟩⟩
  · rw [gp_df_ok_h env pred h2 hh, assemble_is_simple]
  · rw [gp_df_ok_h env pred h2 hh, assemble_warning, hfut,
      isEmpty_range_map_map _ _ (by norm_num)]
    rfl
  · rw [gp_df_ok_h env pred h2 hh, assemble_predictions, hfut,
      isEmpty_range_map_map _ _ (by norm_num)]
    show (((List.range 12).map _).map _).length = 12
    rw [List.length_map, List.length_map, List.length_range]

/-- C2 (witness): the amended theorem at the concrete 2-point hourly
series. -/
theorem C2_witness :
    (gp_df envC (FitOutcome.ok (fun _ => ((100 : ℚ), 90, 110))) df2).predictions.length =
      12 :=
  (C2_amended envC (fun _ => ((100 : ℚ), 90, 110)) df2 (by decide) (by decide)).2.2.1

/-- C5 (counterexample): the claim says that when the seasonal model fails
to fit, the result has confidence 0.5 and a warning with the error text;
but a fit failure is caught INSIDE `train_model` (which returns `None`), so
the engine falls back silently: confidence keeps the 0.8 default and no
warning is attached. -/
theorem C5_counterexample :
    (gp_df envC (FitOutcome.fail "boom") df5).confidence_score = 4/5 ∧
    (gp_df envC (FitOutcome.fail "boom") df5).warning = none := by
  refine ⟨rfl, rfl⟩

/-- C5 (amended): when `train_model` catches the fit error and returns
`None`, the fallback is silent — confidence 0.8, no warning,
`is_simple_prediction = true`; only when an exception escapes elsewhere in
the modeling block does the result carry confidence 0.5 and a warning
containing the captured error text. -/
theorem C5_amended (env : Env) (df : List TP) (msg : String)
    (h2 : 2 ≤ df.length) (hms : sortTP df = df) :
    ((gp_df env (FitOutcome.fail msg) df).confidence_score = 4/5 ∧
     (gp_df env (FitOutcome.fail msg) df).warning = none ∧
     (gp_df env (FitOutcome.fail msg) df).is_simple_prediction = true) ∧
    ((gp_df env (FitOutcome.raise msg) df).confidence_score = 1/2 ∧
     (gp_df env (FitOutcome.raise msg) df).warning =
       some ("Error during prediction: " ++ msg ++
         ". Using simple trend-based forecast instead.") ∧
     (gp_df env (FitOutcome.raise msg) df).is_simple_prediction = true) := by
  have hne := ne_nil_of_two_le h2
  have hper : 0 < (if isHourlyOf df then 12 else 30) := by split <;> norm_num
  refine ⟨⟨?_, ?_, ?_⟩, ?_, ?_, ?_⟩
  · rw [gp_df_fail env msg h2, assemble_confidence, if_neg (by simp)]
  · rw [gp_df_fail env msg h2, assemble_warning,
      gsp_filter_all env hms hne _ _,
      map_isEmpty_false (gsp_ne_nil env df hper _) _]
    rfl
  · rw [gp_df_fail env msg h2, assemble_is_simple]
  · rw [gp_df_raise env msg h2]; rfl
  · rw [gp_df_raise env msg h2]; rfl
  · rw [gp_df_raise env msg h2]; rfl

/-- C5 (witness): the amended theorem evaluated on the concrete 5-point
series. -/
theorem C5_witness :
    (gp_df envC (FitOutcome.fail "z") df5).warning = none ∧
    (gp_df envC (FitOutcome.raise "z") df5).confidence_score = 1/2 :=
  ⟨(C5_amended envC df5 "z" (by decide) (by decide)).1.2.1,
   (C5_amended envC df5 "z" (by decide) (by decide)).2.1⟩

/-- C7: for every series with at least 5 points (sorted, as preprocessing
guarantees), the returned predictions array has length exactly 12 when the
run is classified hourly and exactly 30 when daily — on the seasonal path,
on the silent fit-failure fallback, and on the exception fallback alike. -/
theorem C7 (env : Env) (fit : FitOutcome) (df : List TP)
    (h5 : 5 ≤ df.length) (hms : sortTP df = df) :
    (gp_df env fit df).predictions.length = (if isHourlyOf df then 12 else 30) := by
  have h2 : 2 ≤ df.length := by omega
  have hne := ne_nil_of_two_le h2
  have hper : 0 < (if isHourlyOf df then 12 else 30) := by split <;> norm_num
  have hstep : (0 : Int) < (if isHourlyOf df then 3600 else 86400) := by
    split <;> norm_num
  cases fit with
  | raise msg =>
    rw [gp_df_raise env msg h2]
    show ((gsp env df _ _).map _).length = _
    rw [List.length_map, gsp_length]
  | fail msg =>
    rw [gp_df_fail env msg h2, assemble_predictions,
      gsp_filter_all env hms hne _ _,
      map_isEmpty_false (gsp_ne_nil env df hper _) _]
    show ((gsp env df _ _).map _).length = _
    rw [List.length_map, gsp_length]
  | ok pred =>
    rw [gp_df_ok env pred h2, assemble_predictions,
      seasonal_future pred (lastY df) df hne _ _ hstep,
      isEmpty_range_map_map _ _ hper]
    show (((List.range _).map _).map _).length = _
    rw [List.length_map, List.length_map, List.length_range]

/-- C7 (witness): the concrete 5-point hourly series on the fit-failure
path yields 12 predictions. -/
theorem C7_witness :
    (gp_df envC (FitOutcome.fail "x") df5).predictions.length =
      (if isHourlyOf df5 then 12 else 30) :=
  C7 envC (FitOutcome.fail "x") df5 (by decide) (by decide)

/-- C3 (counterexample): on the seasonal path the dampened estimate is
`0.7*yhat + 0.3*last_actual` but the bounds are fractions of the RAW
`yhat`, so when the raw estimate (100) is far above the last actual (10)
the produced point has `lower = 90 > value = 73`, violating
`lower_bound <= point_estimate`. -/
theorem C3_counterexample :
    ∃ p ∈ (gp_df envC (FitOutcome.ok (fun _ => ((100 : ℚ), 0, 0))) df5).predictions,
      ¬ predInv p := by
  have hfut := seasonal_future (fun _ => ((100 : ℚ), 0, 0)) (lastY df5) df5 (by decide)
    12 3600 (by norm_num)
  have hp : (gp_df envC (FitOutcome.ok (fun _ => ((100 : ℚ), 0, 0))) df5).predictions =
      ((List.range 12).map
        (fun (k : Nat) =>
          ({ ds := listMax (df5.map TP.ds) + ((k : Int) + 1) * 3600,
             yhat := 7/10 * 100 + 3/10 * lastY df5,
             yhat_lower := 9/10 * 100,
             yhat_upper := 11/10 * 100 } : FRow))).map (fmtRow envC true false) := by
    rw [gp_df_ok_h envC _ (by decide) (by decide), assemble_predictions, hfut,
      isEmpty_range_map_map _ _ (by norm_num)]
    rfl
  rw [hp]
  refine ⟨_, List.mem_map_of_mem _ (List.mem_map_of_mem _ (by decide : 0 ∈ List.range 12)), ?_⟩
  intro hinv
  obtain ⟨-, hle, -⟩ := hinv
  have hv : pyInt (7/10 * 100 + 3/10 * lastY df5) = 73 := by
    rw [show (7/10 * 100 + 3/10 * lastY df5 : ℚ) = ((73 : Int) : ℚ) by
      show (7/10 * 100 + 3/10 * 10 : ℚ) = ((73 : Int) : ℚ)
      norm_num, pyInt_intCast]
  have hlo : pyInt (9/10 * (100 : ℚ)) = 90 := by
    rw [show (9/10 * (100 : ℚ)) = ((90 : Int) : ℚ) by norm_num, pyInt_intCast]
  rw [show (fmtRow envC true false
      ({ ds := listMax (df5.map TP.ds) + ((0 : Nat) + 1) * 3600,
         yhat := 7/10 * 100 + 3/10 * lastY df5,
         yhat_lower := 9/10 * 100,
         yhat_upper := 11/10 * 100 } : FRow)).lower = pyInt (9/10 * (100 : ℚ)) from rfl,
    show (fmtRow envC true false
      ({ ds := listMax (df5.map TP.ds) + ((0 : Nat) + 1) * 3600,
         yhat := 7/10 * 100 + 3/10 * lastY df5,
         yhat_lower := 9/10 * 100,
         yhat_upper := 11/10 * 100 } : FRow)).value =
      pyInt (7/10 * 100 + 3/10 * lastY df5) from rfl, hv, hlo] at hle
  omega

/-- C3 (amended): every prediction point on the synthetic, insufficient-
data, fit-failure and exception paths satisfies
`0 <= lower <= value <= upper`; on the seasonal path the bounds derive from
the RAW estimate, so the invariant holds provided every raw estimate y
stays within `2*y <= 3*last_actual <= 4*y` (and can fail otherwise, see the
counterexample). -/
theorem C3_amended (env : Env) (fit : FitOutcome) (df : List TP)
    (hS : ∀ i, -20 ≤ env.randSynth i ∧ env.randSynth i < 30)
    (hseas : ∀ pred, fit = FitOutcome.ok pred → ∀ t : Int,
      0 ≤ (pred t).1 ∧ 2 * (pred t).1 ≤ 3 * lastY df ∧ 3 * lastY df ≤ 4 * (pred t).1) :
    (∀ p ∈ (gp_df env fit df).predictions, predInv p) ∧
    (∀ msg : String, ∀ p ∈ (ultimate_result msg).predictions, predInv p) := by
  constructor
  · cases df with
    | nil =>
      rw [gp_df_nil]
      exact predInv_synthPreds hS
    | cons a t =>
      cases t with
      | nil =>
        rw [gp_df_one]
        exact predInv_gsp_preds env [a] 30 false true
      | cons b u =>
        have h2 : 2 ≤ (a :: b :: u).length := by
          simp only [List.length_cons]
          omega
        have hne := ne_nil_of_two_le h2
        have hstep : (0 : Int) <
            (if isHourlyOf (a :: b :: u) then 3600 else 86400) := by
          split <;> norm_num
        cases fit with
        | raise msg =>
          rw [gp_df_raise env msg h2]
          exact predInv_gsp_preds env (a :: b :: u) _ _ true
        | fail msg =>
          rw [gp_df_fail env msg h2]
          intro p hp
          rw [assemble_predictions] at hp
          rcases mem_ite_preds hp with hp | hp
          · exact predInv_synthPreds hS p hp
          · obtain ⟨r, hr, rfl⟩ := List.mem_map.1 hp
            obtain ⟨h10, hl, hu⟩ := gsp_row (List.mem_of_mem_filter hr)
            exact predInv_simple_row env _ _ h10 hl hu
        | ok pred =>
          rw [gp_df_ok env pred h2]
          intro p hp
          rw [assemble_predictions] at hp
          rcases mem_ite_preds hp with hp | hp
          · exact predInv_synthPreds hS p hp
          · obtain ⟨r, hr, rfl⟩ := List.mem_map.1 hp
            rw [seasonal_future pred (lastY (a :: b :: u)) _ hne _ _ hstep] at hr
            obtain ⟨k, -, rfl⟩ := List.mem_map.1 hr
            obtain ⟨h0, h23, h34⟩ := hseas pred rfl _
            exact predInv_damped env _ h0 h23 h34 _
  · intro msg p hp
    rw [List.mem_singleton.1 hp]
    exact ⟨by decide, by decide, by decide⟩

/-- C3 (witness): the amended theorem instantiated at a concrete seasonal
run whose raw estimates stay close to the last actual value, applied to the
static fallback point. -/
theorem C3_witness :
    predInv ⟨"1 PM", 100, 90, 110, true, true⟩ :=
  (C3_amended envC (FitOutcome.ok (fun _ => ((10 : ℚ), 9, 11))) df5
    (fun i => by
      show (-20 : Int) ≤ 0 ∧ (0 : Int) < 30
      exact ⟨by norm_num, by norm_num⟩)
    (fun pred hp t => by
      cases hp
      refine ⟨by norm_num, ?_, ?_⟩
      · show 2 * (10 : ℚ) ≤ 3 * lastY df5
        show 2 * (10 : ℚ) ≤ 3 * 10
        norm_num
      · show 3 * lastY df5 ≤ 4 * (10 : ℚ)
        show 3 * (10 : ℚ) ≤ 4 * 10
        norm_num)).2 "x" _ (List.mem_cons_self _ _)

/-- C4 (counterexample): the post-processor sets
`point_estimate' = 0.7*yhat + 0.3*last_actual` but, because `iterrows`
hands it a stale row copy, the new bounds are `0.9*yhat` and `1.1*yhat` of
the RAW estimate — not fractions of the dampened estimate as claimed
(`0.9 * 100 ≠ 0.9 * (0.7*100 + 0.3*10)`). -/
theorem C4_counterexample :
    dampen 10 14400 [⟨18000, 100, 0, 0⟩] =
      [⟨18000, 7/10 * 100 + 3/10 * 10, 9/10 * 100, 11/10 * 100⟩] ∧
    (9/10 * (100 : ℚ)) ≠ 9/10 * (7/10 * 100 + 3/10 * 10) := by
  exact ⟨rfl, by norm_num⟩

/-- C4 (amended): on the seasonal path, for the k-th returned prediction
(at timestamp t strictly after the last historical timestamp, with raw
estimate y = yhat(t)): `value = int(0.7*y + 0.3*last_actual)`,
`lower = int(0.9*y)` and `upper = int(1.1*y)` — the bounds are fractions of
the RAW estimate; forecast rows at or before the last historical timestamp
are left unchanged by the dampener. -/
theorem C4_amended (env : Env) (pred : Int → ℚ × ℚ × ℚ) (df : List TP)
    (h2 : 2 ≤ df.length) (k : Nat)
    (hk : k < (if isHourlyOf df then 12 else 30)) :
    ((gp_df env (FitOutcome.ok pred) df).predictions[k]? =
      some (fmtRow env (isHourlyOf df) false
        ⟨listMax (df.map TP.ds) +
            ((k : Int) + 1) * (if isHourlyOf df then 3600 else 86400),
          7/10 * (pred (listMax (df.map TP.ds) +
            ((k : Int) + 1) * (if isHourlyOf df then 3600 else 86400))).1 +
            3/10 * lastY df,
          9/10 * (pred (listMax (df.map TP.ds) +
            ((k : Int) + 1) * (if isHourlyOf df then 3600 else 86400))).1,
          11/10 * (pred (listMax (df.map TP.ds) +
            ((k : Int) + 1) * (if isHourlyOf df then 3600 else 86400))).1⟩)) ∧
    (∀ (a : ℚ) (m : Int) (rows : List FRow) (r : FRow),
      r ∈ rows → ¬ m < r.ds → r ∈ dampen a m rows) := by
  constructor
  · have hne := ne_nil_of_two_le h2
    have hstep : (0 : Int) < (if isHourlyOf df then 3600 else 86400) := by
      split <;> norm_num
    have hper0 : 0 < (if isHourlyOf df then 12 else 30) := by split <;> norm_num
    rw [gp_df_ok env pred h2, assemble_predictions,
      seasonal_future pred (lastY df) df hne _ _ hstep,
      isEmpty_range_map_map _ _ hper0, if_neg (by decide)]
    rw [List.getElem?_map, List.getElem?_map, List.getElem?_range hk]
    rfl
  · intro a m rows r hr hnlt
    unfold dampen
    have he : dampF a m r = r := dampF_of_not_lt hnlt
    exact he ▸ List.mem_map_of_mem (dampF a m) hr

/-- C4 (witness): the amended theorem at the concrete 5-point series with
raw estimate 100 and last actual 10: first prediction dampened to 73 with
bounds 90 and 110 taken from the raw estimate. -/
theorem C4_witness :
    (gp_df envC (FitOutcome.ok (fun _ => ((100 : ℚ), 0, 0))) df5).predictions[0]? =
      some (fmtRow envC true false
        ⟨18000, 7/10 * 100 + 3/10 * 10, 9/10 * 100, 11/10 * 100⟩) := by
  have h := (C4_amended envC (fun _ => ((100 : ℚ), 0, 0)) df5 (by decide) 0 (by decide)).1
  rw [h]
  rfl

/-- C8: every result of `generate_predictions` carries a confidence score
in [0.4, 0.95] (on every path, the unreachable static fallback included);
and when the seasonal model succeeded on a series of more than 3 points
with distinct sorted timestamps and positive values, the score equals
`clamp(1 - MAPE, 0.4, 0.95)` computed from the back-test against the
historical window. -/
theorem C8 (env : Env) (fit : FitOutcome) (d : PyData) (df : List TP)
    (pred : Int → ℚ × ℚ × ℚ) (hpos : ∀ p ∈ df, 0 < p.y) (h3 : 3 < df.length)
    (hhd : history_dates (df.map TP.ds) = df.map TP.ds) :
    (∀ r, generate_predictions env fit d = Except.ok r →
      2/5 ≤ r.confidence_score ∧ r.confidence_score ≤ 19/20) ∧
    (∀ msg, 2/5 ≤ (ultimate_result msg).confidence_score ∧
      (ultimate_result msg).confidence_score ≤ 19/20) ∧
    (gp_df env (FitOutcome.ok pred) df).confidence_score =
      max (2/5) (min (19/20) (1 - mapeOf pred df)) := by
  refine ⟨?_, fun msg => by norm_num [ultimate_result], ?_⟩
  · intro r hr
    cases hpp : preprocess_data env d with
    | error e => simp [generate_predictions, hpp] at hr
    | ok o =>
      cases o with
      | none =>
        simp only [generate_predictions, hpp, Except.ok.injEq] at hr
        subst hr
        norm_num [synthetic_result]
      | some df' =>
        simp only [generate_predictions, hpp, Except.ok.injEq] at hr
        subst hr
        exact gp_df_confidence_bounds env fit df'
  · have h2 : 2 ≤ df.length := by omega
    rw [gp_df_ok env pred h2, assemble_confidence, if_pos ⟨rfl, h3⟩]
    exact refine_ok pred hhd (ne_nil_of_two_le h2) _ (by split <;> norm_num)

/-- C8 (witness): on the concrete 5-point series with constant value 10 and
a fitted model predicting 10 everywhere, the refined confidence is the
clamped 1 - MAPE. -/
theorem C8_witness :
    (gp_df envC (FitOutcome.ok (fun _ => ((10 : ℚ), 9, 11))) df5).confidence_score =
      max (2/5) (min (19/20) (1 - mapeOf (fun _ => ((10 : ℚ), 9, 11)) df5)) :=
  (C8 envC (FitOutcome.fail "x") (PyData.arr []) df5 (fun _ => ((10 : ℚ), 9, 11))
    (by decide) (by decide) (by decide)).2.2

/-- C9 (counterexample): the claim that a value n followed by "K" parses to
n*1000 fails for decimal n: `replace('K','000')` appends the zeros after
the fractional digits, so "4.5K" becomes "4.5000" and parses to 4.5, not
4500. -/
theorem C9_counterexample :
    parse_value "4.5K" = 9/2 ∧ parse_value "4.5K" ≠ 4500 := by
  have h : parse_value "4.5K" =
      (digitsToNat ['4'] : ℚ) + (digitsToNat ['5', '0', '0', '0'] : ℚ) / (10 : ℚ) ^ 4 := rfl
  have h4 : digitsToNat ['4'] = 4 := rfl
  have h5 : digitsToNat ['5', '0', '0', '0'] = 5000 := rfl
  rw [h, h4, h5]
  norm_num

/-- C9 (amended): value parsing strips thousands separators and expands a
trailing "K" by appending three zeros, so for every INTEGER digit string n
the value "nK" parses to n*1000 (decimal strings with a "K" suffix fall
outside the rule); `parse_value("12,345") = 12345`,
`parse_value("4K") = 4000`, `parse_value("-") = 0`. -/
theorem C9_amended (s : List Char) (hne : s ≠ []) (hdig : s.all Char.isDigit = true) :
    parse_value (String.mk (s ++ ['K'])) = (digitsToNat s : ℚ) * 1000 ∧
    parse_value "12,345" = 12345 ∧ parse_value "4K" = 4000 ∧ parse_value "-" = 0 := by
  refine ⟨?_, rfl, rfl, rfl⟩
  have hd : ∀ x ∈ s, x.isDigit = true := by
    rw [List.all_eq_true] at hdig
    exact hdig
  unfold parse_value cleanValue
  have h1 : (String.mk (s ++ ['K'])).toList = s ++ ['K'] := rfl
  rw [h1]
  rw [replChar_of_not_mem [] ?hc]
  case hc =>
    intro x hx
    rcases List.mem_append.1 hx with h | h
    · exact digit_ne_comma (hd x h)
    · rw [List.mem_singleton.1 h]
      decide
  rw [replChar_append]
  rw [replChar_of_not_mem ['0', '0', '0'] (fun x hx => digit_ne_K (hd x hx))]
  rw [show replChar 'K' ['0', '0', '0'] ['K'] = ['0', '0', '0'] from rfl]
  rw [List.filter_eq_self.2 ?hkeep]
  case hkeep =>
    intro x hx
    rcases List.mem_append.1 hx with h | h
    · simp [hd x h]
    · simp only [List.mem_cons, List.not_mem_nil, or_false] at h
      rcases h with h | h | h <;> subst h <;> decide
  unfold parseFloatQ
  rw [splitOnDot_no_dot ?hnd]
  case hnd =>
    intro x hx
    rcases List.mem_append.1 hx with h | h
    · exact digit_ne_dot (hd x h)
    · simp only [List.mem_cons, List.not_mem_nil, or_false] at h
      rcases h with h | h | h <;> subst h <;> decide
  show (Option.getD (if (s ++ ['0', '0', '0'] ≠ [] ∧
      (s ++ ['0', '0', '0']).all Char.isDigit) then
    some ((digitsToNat (s ++ ['0', '0', '0']) : ℚ)) else none) 0) = _
  have hcond : s ++ ['0', '0', '0'] ≠ [] ∧
      ((s ++ ['0', '0', '0']).all Char.isDigit) = true := by
    refine ⟨by simp, ?_⟩
    rw [List.all_append, hdig]
    decide
  rw [if_pos hcond]
  rw [Option.getD_some, digitsToNat_append]
  rw [show digitsToNat ['0', '0', '0'] = 0 from rfl]
  rw [show (['0', '0', '0'] : List Char).length = 3 from rfl]
  push_cast
  ring

/-- C9 (witness): the amended general rule evaluated at the digit string
"45". -/
theorem C9_witness :
    parse_value (String.mk (['4', '5'] ++ ['K'])) = (digitsToNat ['4', '5'] : ℚ) * 1000 :=
  (C9_amended ['4', '5'] (by decide) (by decide)).1

end Fortnite
